import Mathlib

/-!
Shallow embedding of the modelforge-ai core: the scene entity store
(`useModeling` zustand store), the room synthesis engine (`createRoom`,
`addFurniture`), the blueprint importer (`importBlueprint`), the scene
exporter (`exportScene` in the toolbar), and the text command parser
(`commandParser.ts`).

Modelling conventions:
* JavaScript numbers are embedded as rationals (`ℚ`); all numeric literals
  appearing in the source (0.1, 0.2, 0.5, …) are exactly representable.
* Optional (`field?:`) properties are embedded as `Option`.
* A TypeScript `Partial<T>` patch is a structure whose required fields are
  `Option` and whose optional fields are `Option (Option _)`: `none` means
  the key is absent from the patch, `some v` means the key is present with
  value `v` (which for an optional field may itself be `undefined`/`none`,
  as JavaScript object spread distinguishes an absent key from a key bound
  to `undefined`).
* The nondeterministic id generator (`Date.now()` plus a random suffix) is
  embedded as an explicit id argument supplied by the caller; freshness is
  a hypothesis where a claim needs it.
* Angles produced by the rotate parser are recorded in degrees in the
  action structure; the source multiplies by `Math.PI / 180` at the same
  site, which is embedded by the real-valued `degreesToRadians`.
-/

namespace ModelForge

/-- `Vector3` from `types/modeling.ts`: an `x`/`y`/`z` triple of numbers. -/
structure Vector3 where
  x : ℚ
  y : ℚ
  z : ℚ
deriving Repr, DecidableEq

/-- `ModelingObject` from `types/modeling.ts` (the room-aware variant):
one placeable scene entity. -/
structure ModelingObject where
  id : String
  type : String
  category : Option String := none
  subtype : Option String := none
  name : Option String := none
  position : Vector3
  rotation : Vector3
  scale : Vector3
  color : String
  opacity : Option ℚ := none
  modelPath : Option String := none
  material : Option String := none
  wireframe : Option Bool := none
  visible : Option Bool := none
  room : Option String := none
  isStructural : Option Bool := none
deriving Repr, DecidableEq

/-- `Omit<ModelingObject, 'id'>`: the argument of `createObject`. -/
structure ObjectParams where
  type : String
  category : Option String := none
  subtype : Option String := none
  name : Option String := none
  position : Vector3
  rotation : Vector3
  scale : Vector3
  color : String
  opacity : Option ℚ := none
  modelPath : Option String := none
  material : Option String := none
  wireframe : Option Bool := none
  visible : Option Bool := none
  room : Option String := none
  isStructural : Option Bool := none
deriving Repr, DecidableEq

/-- `{...params, id}`: build the stored entity from creation parameters
and the freshly generated id. -/
def ObjectParams.withId (p : ObjectParams) (id : String) : ModelingObject :=
  { id := id, type := p.type, category := p.category, subtype := p.subtype,
    name := p.name, position := p.position, rotation := p.rotation,
    scale := p.scale, color := p.color, opacity := p.opacity,
    modelPath := p.modelPath, material := p.material,
    wireframe := p.wireframe, visible := p.visible, room := p.room,
    isStructural := p.isStructural }

/-- The id-less field bundle of an entity (used by `duplicateObject`,
which spreads every field of the original into a new creation request). -/
def ModelingObject.params (o : ModelingObject) : ObjectParams :=
  { type := o.type, category := o.category, subtype := o.subtype,
    name := o.name, position := o.position, rotation := o.rotation,
    scale := o.scale, color := o.color, opacity := o.opacity,
    modelPath := o.modelPath, material := o.material,
    wireframe := o.wireframe, visible := o.visible, room := o.room,
    isStructural := o.isStructural }

/-- `Partial<ModelingObject>`: the patch argument of `updateObject`. -/
structure ObjectUpdate where
  id : Option String := none
  type : Option String := none
  category : Option (Option String) := none
  subtype : Option (Option String) := none
  name : Option (Option String) := none
  position : Option Vector3 := none
  rotation : Option Vector3 := none
  scale : Option Vector3 := none
  color : Option String := none
  opacity : Option (Option ℚ) := none
  modelPath : Option (Option String) := none
  material : Option (Option String) := none
  wireframe : Option (Option Bool) := none
  visible : Option (Option Bool) := none
  room : Option (Option String) := none
  isStructural : Option (Option Bool) := none
deriving Repr, DecidableEq

/-- JavaScript object spread `{...obj, ...updates}`: every key present in
the patch overwrites the corresponding field of the entity. -/
def mergeObject (o : ModelingObject) (u : ObjectUpdate) : ModelingObject :=
  { id := u.id.getD o.id, type := u.type.getD o.type,
    category := u.category.getD o.category, subtype := u.subtype.getD o.subtype,
    name := u.name.getD o.name, position := u.position.getD o.position,
    rotation := u.rotation.getD o.rotation, scale := u.scale.getD o.scale,
    color := u.color.getD o.color, opacity := u.opacity.getD o.opacity,
    modelPath := u.modelPath.getD o.modelPath, material := u.material.getD o.material,
    wireframe := u.wireframe.getD o.wireframe, visible := u.visible.getD o.visible,
    room := u.room.getD o.room, isStructural := u.isStructural.getD o.isStructural }

/-- Room dimensions `{width, length, height}`. -/
structure Dimensions where
  width : ℚ
  length : ℚ
  height : ℚ
deriving Repr, DecidableEq

/-- `Room` from `types/modeling.ts`: an index of the entities forming one
rectangular enclosed space. -/
structure Room where
  id : String
  name : String
  type : String
  dimensions : Dimensions
  walls : List ModelingObject
  floor : ModelingObject
  furniture : List ModelingObject
  doors : List ModelingObject
  windows : List ModelingObject
deriving Repr, DecidableEq

/-- The `{width, length}` dimension pair of a floor plan. -/
structure PlanDimensions where
  width : ℚ
  length : ℚ
deriving Repr, DecidableEq

/-- `FloorPlan` from `types/modeling.ts`, produced by blueprint import. -/
structure FloorPlan where
  id : String
  name : String
  rooms : List Room
  scale : ℚ
  imageUrl : Option String := none
  dimensions : PlanDimensions
deriving Repr, DecidableEq

/-- The mutable state of the `useModeling` zustand store. -/
structure ModelingState where
  objects : List ModelingObject
  selectedObject : Option ModelingObject
  currentRoom : Option Room
  floorPlan : Option FloorPlan
  viewMode : String
deriving Repr, DecidableEq

/-- The store's initial state. -/
def initialState : ModelingState :=
  { objects := [], selectedObject := none, currentRoom := none,
    floorPlan := none, viewMode := "3d" }

/-- `createObject`: builds the entity with the generated id, appends it to
the collection, and selects it; returns the created entity. The generated
id (`obj_` + timestamp + random suffix in the source) is an explicit
argument. -/
def createObject (st : ModelingState) (newId : String) (params : ObjectParams) :
    ModelingObject × ModelingState :=
  let newObject := params.withId newId
  (newObject,
    { st with objects := st.objects ++ [newObject], selectedObject := some newObject })

/-- `updateObject`: merges the patch onto every entity with a matching id,
and refreshes the selection pointer to the merged object when the selected
entity has the matching id. -/
def updateObject (st : ModelingState) (id : String) (u : ObjectUpdate) :
    ModelingState :=
  { st with
    objects := st.objects.map (fun o => if o.id == id then mergeObject o u else o),
    selectedObject :=
      match st.selectedObject with
      | some s => if s.id == id then some (mergeObject s u) else some s
      | none => none }

/-- `deleteObject`: removes entities with the matching id; clears the
selection when the selected entity had that id. -/
def deleteObject (st : ModelingState) (id : String) : ModelingState :=
  { st with
    objects := st.objects.filter (fun o => o.id != id),
    selectedObject :=
      match st.selectedObject with
      | some s => if s.id == id then none else some s
      | none => none }

/-- JavaScript string truthiness applied to the optional name when
duplicating: a missing name or the empty string is falsy and yields
`undefined`; otherwise the name is suffixed with a space and `Copy`. -/
def copyName (n : Option String) : Option String :=
  match n with
  | some s => if s = "" then none else some (s ++ " Copy")
  | none => none

/-- `duplicateObject`: finds the original, then creates (via
`createObject`, hence also selecting) a clone with `x` and `z` offset by
one and the name suffixed; returns `null` when the id is absent. -/
def duplicateObject (st : ModelingState) (id newId : String) :
    Option ModelingObject × ModelingState :=
  match st.objects.find? (fun o => o.id == id) with
  | none => (none, st)
  | some orig =>
    let ps : ObjectParams :=
      { orig.params with
        name := copyName orig.name,
        position := { x := orig.position.x + 1, y := orig.position.y,
                      z := orig.position.z + 1 } }
    let r := createObject st newId ps
    (some r.1, r.2)

/-- `selectObject`: resolves the id against the current collection (a
falsy id — `null` or the empty string — clears the selection). -/
def selectObject (st : ModelingState) (id : Option String) : ModelingState :=
  let objectToSelect :=
    match id with
    | some i => if i = "" then none else st.objects.find? (fun o => o.id == i)
    | none => none
  { st with selectedObject := objectToSelect }

/-- `clearScene`: empties the collection and the selection. -/
def clearScene (st : ModelingState) : ModelingState :=
  { st with objects := [], selectedObject := none }

/-- Replace the first underscore of a string by a space — JavaScript
`s.replace(underscore, space)` with string arguments substitutes only the
first occurrence. -/
def replaceFirstUnderscore : List Char → List Char
  | [] => []
  | c :: rest => if c = '_' then ' ' :: rest else c :: replaceFirstUnderscore rest

/-- The display name `type.replace(underscore, space).toUpperCase()`
computed by `createRoom`. -/
def roomDisplayName (t : String) : String :=
  String.mk ((replaceFirstUnderscore t.data).map Char.toUpper)

/-- The floor entity parameters built by `createRoom`: centered at the
origin, scaled `width` by `length` with a fixed `0.1` slab height. -/
def floorParams (roomId ty : String) (d : Dimensions) : ObjectParams :=
  { type := "floor", category := some "room", name := some (ty ++ " Floor"),
    position := ⟨0, 0, 0⟩, scale := ⟨d.width, 1/10, d.length⟩,
    rotation := ⟨0, 0, 0⟩, color := "#8B7355", room := some roomId,
    isStructural := some true }

/-- The North wall of `createRoom`: spans the width, sits at
`z = length / 2`, thickness `0.2`. -/
def northWallParams (roomId : String) (d : Dimensions) : ObjectParams :=
  { type := "wall", category := some "room", name := some "North Wall",
    position := ⟨0, d.height / 2, d.length / 2⟩,
    scale := ⟨d.width, d.height, 1/5⟩, rotation := ⟨0, 0, 0⟩,
    color := "#F5F5F5", room := some roomId, isStructural := some true }

/-- The South wall of `createRoom`: spans the width, sits at
`z = -length / 2`, thickness `0.2`. -/
def southWallParams (roomId : String) (d : Dimensions) : ObjectParams :=
  { type := "wall", category := some "room", name := some "South Wall",
    position := ⟨0, d.height / 2, -(d.length / 2)⟩,
    scale := ⟨d.width, d.height, 1/5⟩, rotation := ⟨0, 0, 0⟩,
    color := "#F5F5F5", room := some roomId, isStructural := some true }

/-- The East wall of `createRoom`: spans the length, sits at
`x = width / 2`, thickness `0.2`. -/
def eastWallParams (roomId : String) (d : Dimensions) : ObjectParams :=
  { type := "wall", category := some "room", name := some "East Wall",
    position := ⟨d.width / 2, d.height / 2, 0⟩,
    scale := ⟨1/5, d.height, d.length⟩, rotation := ⟨0, 0, 0⟩,
    color := "#F5F5F5", room := some roomId, isStructural := some true }

/-- The West wall of `createRoom`: spans the length, sits at
`x = -width / 2`, thickness `0.2`. -/
def westWallParams (roomId : String) (d : Dimensions) : ObjectParams :=
  { type := "wall", category := some "room", name := some "West Wall",
    position := ⟨-(d.width / 2), d.height / 2, 0⟩,
    scale := ⟨1/5, d.height, d.length⟩, rotation := ⟨0, 0, 0⟩,
    color := "#F5F5F5", room := some roomId, isStructural := some true }

/-- `createRoom`: creates one floor and four walls through `createObject`
(in this order: floor, North, South, East, West), builds the `Room` index
referencing the created entities, and installs it as the current room.
The generated room id and the five generated entity ids are explicit
arguments. -/
def createRoom (st : ModelingState) (roomId fId nId sId eId wId ty : String)
    (d : Dimensions) : Room × ModelingState :=
  let rf := createObject st fId (floorParams roomId ty d)
  let rn := createObject rf.2 nId (northWallParams roomId d)
  let rs := createObject rn.2 sId (southWallParams roomId d)
  let re := createObject rs.2 eId (eastWallParams roomId d)
  let rw := createObject re.2 wId (westWallParams roomId d)
  let room : Room :=
    { id := roomId, name := roomDisplayName ty, type := ty, dimensions := d,
      walls := [rn.1, rs.1, re.1, rw.1], floor := rf.1,
      furniture := [], doors := [], windows := [] }
  (room, { rw.2 with currentRoom := some room })

/-- The fixed furniture-type to color table of `addFurniture`. -/
def furnitureColors : String → Option String
  | "bed" => some "#8B4513"
  | "chair" => some "#654321"
  | "table" => some "#D2691E"
  | "dining_table" => some "#CD853F"
  | "sofa" => some "#4A4A4A"
  | "desk" => some "#8B7355"
  | "wardrobe" => some "#696969"
  | "tv_stand" => some "#2F4F4F"
  | "counter" => some "#8B7355"
  | "refrigerator" => some "#C0C0C0"
  | "toilet" => some "#FFFFFF"
  | "sink" => some "#F5F5F5"
  | "bathtub" => some "#FFFFFF"
  | "nightstand" => some "#654321"
  | "bookshelf" => some "#8B4513"
  | _ => none

/-- The fixed furniture-type to default scale table of `addFurniture`. -/
def furnitureScales : String → Option Vector3
  | "bed" => some ⟨2, 1/2, 1⟩
  | "chair" => some ⟨1/2, 1, 1/2⟩
  | "table" => some ⟨3/2, 4/5, 4/5⟩
  | "dining_table" => some ⟨2, 4/5, 6/5⟩
  | "sofa" => some ⟨2, 4/5, 4/5⟩
  | "desk" => some ⟨6/5, 4/5, 3/5⟩
  | "wardrobe" => some ⟨1, 2, 3/5⟩
  | "tv_stand" => some ⟨3/2, 3/5, 2/5⟩
  | "counter" => some ⟨2, 4/5, 3/5⟩
  | "refrigerator" => some ⟨3/5, 2, 3/5⟩
  | "toilet" => some ⟨3/5, 4/5, 4/5⟩
  | "sink" => some ⟨3/5, 4/5, 2/5⟩
  | "bathtub" => some ⟨3/2, 3/5, 4/5⟩
  | "nightstand" => some ⟨1/2, 3/5, 2/5⟩
  | "bookshelf" => some ⟨2/5, 2, 3/2⟩
  | _ => none

/-- JavaScript `s.charAt(0).toUpperCase() + s.slice(1)`. -/
def jsCapitalize (s : String) : String :=
  match s.data with
  | [] => ""
  | c :: rest => String.mk (c.toUpper :: rest)

/-- `addFurniture`: creates (via `createObject`) one furniture entity,
looking up color and scale in the fixed tables with generic fallbacks; a
missing position argument falls back to `(0, 0.5, 0)`. -/
def addFurniture (st : ModelingState) (newId roomId furnitureType : String)
    (position : Option Vector3) : ModelingObject × ModelingState :=
  createObject st newId
    { type := "furniture", category := some "furniture",
      subtype := some furnitureType, name := some (jsCapitalize furnitureType),
      position := position.getD ⟨0, 1/2, 0⟩,
      scale := (furnitureScales furnitureType).getD ⟨1, 1, 1⟩,
      rotation := ⟨0, 0, 0⟩,
      color := (furnitureColors furnitureType).getD "#8B4513",
      room := some roomId }

/-- `importBlueprint`: records only image metadata — the file-derived
name, the object URL, unit scale, a fixed 20 by 20 dimension — with an
empty `rooms` array, and stores the plan; the generated plan id and the
object URL are explicit arguments. -/
def importBlueprint (st : ModelingState) (planId fileName imageUrl : String) :
    FloorPlan × ModelingState :=
  let floorPlan : FloorPlan :=
    { id := planId, name := (fileName.splitOn ".").headD "",
      rooms := [], scale := 1, imageUrl := some imageUrl,
      dimensions := ⟨20, 20⟩ }
  (floorPlan, { st with floorPlan := some floorPlan })

/-- The JSON scene-export payload built by the toolbar's `exportScene`. -/
structure SceneData where
  objects : List ModelingObject
  timestamp : String
  version : String
deriving Repr, DecidableEq

/-- The per-entity export transform: entities of kind `imported` have
their `modelPath` removed (the key is set to `undefined`, which JSON
serialization drops); all other fields pass through unchanged. -/
def exportObject (o : ModelingObject) : ModelingObject :=
  { o with modelPath := if o.type = "imported" then none else o.modelPath }

/-- `exportScene`: maps the export transform over the store's objects and
wraps them with a timestamp (an explicit argument here; `new
Date().toISOString()` in the source) and version string `1.0`. -/
def exportScene (objects : List ModelingObject) (timestamp : String) :
    SceneData :=
  { objects := objects.map exportObject, timestamp := timestamp,
    version := "1.0" }

/-- `CommandAction` from `commandParser.ts`. The source stores the rotate
angle already converted to radians; the embedding records it in degrees in
`rotationDeg` and performs the (real-valued) conversion separately in
`degreesToRadians`, keeping the parser computable over rationals. -/
structure CommandAction where
  type : String
  shape : Option String := none
  color : Option String := none
  position : Option Vector3 := none
  scale : Option Vector3 := none
  rotationDeg : Option Vector3 := none
  property : Option String := none
  target : Option String := none
deriving Repr, DecidableEq

/-- `CommandResult` from `commandParser.ts`. -/
structure CommandResult where
  success : Bool
  action : Option CommandAction := none
  error : Option String := none
deriving Repr, DecidableEq

/-- The fixed color-name to hex table `colorMap`. -/
def colorMap : String → Option String
  | "red" => some "#ff6b6b"
  | "blue" => some "#4ecdc4"
  | "green" => some "#51cf66"
  | "yellow" => some "#ffd93d"
  | "orange" => some "#ff8c42"
  | "purple" => some "#9c88ff"
  | "pink" => some "#ff8cc8"
  | "cyan" => some "#22d3ee"
  | "gray" => some "#666666"
  | "grey" => some "#666666"
  | "white" => some "#ffffff"
  | "black" => some "#000000"
  | "brown" => some "#8b4513"
  | "lime" => some "#32ff32"
  | "magenta" => some "#ff00ff"
  | "navy" => some "#000080"
  | "silver" => some "#c0c0c0"
  | "gold" => some "#ffd700"
  | _ => none

/-- The keys of `colorMap` in insertion order (used by the unknown-color
error message). -/
def colorKeys : List String :=
  ["red", "blue", "green", "yellow", "orange", "purple", "pink", "cyan",
   "gray", "grey", "white", "black", "brown", "lime", "magenta", "navy",
   "silver", "gold"]

/-- The `shapeAliases` table. -/
def shapeAliases : String → Option String
  | "box" => some "cube"
  | "circle" => some "sphere"
  | "ball" => some "sphere"
  | "tube" => some "cylinder"
  | "pyramid" => some "cone"
  | "ring" => some "torus"
  | "donut" => some "torus"
  | "rectangle" => some "plane"
  | "square" => some "plane"
  | _ => none

/-- The `validShapes` list. -/
def validShapes : List String :=
  ["cube", "sphere", "cylinder", "cone", "torus", "plane"]

/-- Numeric value of a digit run, most significant first. -/
def digitsVal (cs : List Char) : ℚ :=
  cs.foldl (fun acc c => acc * 10 + (c.toNat - 48 : ℕ)) 0

/-- Natural-number value of a digit run, most significant first. -/
def digitsValNat (cs : List Char) : ℕ :=
  cs.foldl (fun acc c => acc * 10 + (c.toNat - 48)) 0

/-- The exponent part of JavaScript `parseFloat` after the `e`/`E`
marker: an optional sign followed by a digit run. When no digit follows,
the exponent part is not consumed and contributes the factor `10 ^ 0`
(`parseFloat` of `2e` and of `2e+` is 2). -/
def jsExponentTail (cs : List Char) : ℤ :=
  let signAndRest : ℤ × List Char :=
    match cs with
    | '-' :: rest => (-1, rest)
    | '+' :: rest => (1, rest)
    | _ => (1, cs)
  let ds := signAndRest.2.takeWhile Char.isDigit
  if ds = [] then 0 else signAndRest.1 * (digitsValNat ds : ℤ)

/-- The power of ten contributed by an exponent part starting at the
given characters: `e` or `E`, an optional sign, and a digit run; anything
else contributes exponent zero. -/
def jsExponent (cs : List Char) : ℤ :=
  match cs with
  | 'e' :: t => jsExponentTail t
  | 'E' :: t => jsExponentTail t
  | _ => 0

/-- JavaScript `parseFloat` on the finite decimal grammar: optional
leading whitespace and sign, a digit run, optionally a dot and another
digit run, optionally an exponent part (`e`/`E`, optional sign, digit
run), ignoring any trailing garbage; `NaN` (no integer and no fraction
digits) is `none`. The non-finite `Infinity` form is not representable in
`ℚ` and is treated as `NaN`; it cannot arise inside the parser, which
lowercases every command before tokenizing, and `parseFloat` of the
lowercase `infinity` is `NaN` in JavaScript as well. -/
def jsParseFloatChars (cs0 : List Char) : Option ℚ :=
  let cs1 := cs0.dropWhile Char.isWhitespace
  let signAndRest : ℚ × List Char :=
    match cs1 with
    | '-' :: rest => (-1, rest)
    | '+' :: rest => (1, rest)
    | _ => (1, cs1)
  let cs := signAndRest.2
  let intPart := cs.takeWhile Char.isDigit
  let afterInt := cs.dropWhile Char.isDigit
  let fracAndRest : List Char × List Char :=
    match afterInt with
    | '.' :: rest => (rest.takeWhile Char.isDigit, rest.dropWhile Char.isDigit)
    | _ => ([], afterInt)
  let fracPart := fracAndRest.1
  if intPart = [] ∧ fracPart = [] then none
  else
    some (signAndRest.1 *
      (digitsVal intPart + digitsVal fracPart / 10 ^ fracPart.length) *
      (10 : ℚ) ^ jsExponent fracAndRest.2)

/-- `parseFloat` on a string. -/
def jsParseFloat (s : String) : Option ℚ :=
  jsParseFloatChars s.data

/-- `!isNaN(parseFloat(token))`. -/
def isNumericToken (t : String) : Bool :=
  (jsParseFloat t).isSome

/-- `tokens.find(token => !isNaN(parseFloat(token)))` followed by
`parseFloat`: the value of the first numeric token. -/
def firstNumericValue (tokens : List String) : Option ℚ :=
  (tokens.find? isNumericToken).bind jsParseFloat

/-- Split a character list at runs of whitespace, keeping only the
non-empty maximal runs of non-whitespace characters — the behavior of the
whitespace-run regex split on a trimmed, non-empty string. -/
def wsSplit (cs : List Char) : List (List Char) :=
  (cs.foldr
    (fun c toks =>
      if c.isWhitespace then [] :: toks
      else
        match toks with
        | [] => [[c]]
        | t :: ts => (c :: t) :: ts)
    []).filter (fun t => t ≠ [])

/-- Strip leading and trailing whitespace characters. -/
def jsTrim (cs : List Char) : List Char :=
  ((cs.dropWhile Char.isWhitespace).reverse.dropWhile Char.isWhitespace).reverse

/-- `command.toLowerCase().trim().split(whitespace-run regex)`. Splitting
the empty string with a regex yields the one-element array containing the
empty string — the JavaScript behavior that makes the empty-command check
of the source unreachable. -/
def jsTokenize (s : String) : List String :=
  let t := jsTrim (s.data.map Char.toLower)
  if t = [] then [""] else (wsSplit t).map String.mk

/-- The modify-target hint: whether the tokens contain `object` or
`selected`. -/
def modifyTarget (tokens : List String) : Option String :=
  if tokens.contains "object" || tokens.contains "selected" then some "selected"
  else none

/-- `parseCreateCommand`. -/
def parseCreateCommand (tokens : List String) : CommandResult :=
  if tokens.length = 0 then
    { success := false,
      error := some "Missing shape type. Try: create cube, create sphere, etc." }
  else
    let shape0 := tokens.headD ""
    let shape := (shapeAliases shape0).getD shape0
    if ¬ (validShapes.contains shape) then
      { success := false,
        error := some ("Unknown shape: " ++ shape ++ ". Valid shapes: " ++
          String.intercalate ", " validShapes) }
    else
      let color := ((tokens.find? (fun t => (colorMap t).isSome)).bind colorMap).getD "#666666"
      let position : Vector3 :=
        match tokens.findIdx? (fun t => t = "at") with
        | some ai =>
          if ai + 2 < tokens.length then
            match jsParseFloat (tokens.getD (ai + 1) ""),
                  jsParseFloat (tokens.getD (ai + 2) "") with
            | some px, some py =>
              ⟨px, py, (jsParseFloat (tokens.getD (ai + 3) "")).getD 0⟩
            | _, _ => ⟨0, 1, 0⟩
          else ⟨0, 1, 0⟩
        | none => ⟨0, 1, 0⟩
      let scl : Vector3 :=
        match tokens.findIdx? (fun t => t = "size" || t = "scale") with
        | some si =>
          if si + 1 < tokens.length then
            match jsParseFloat (tokens.getD (si + 1) "") with
            | some v => if 0 < v then ⟨v, v, v⟩ else ⟨1, 1, 1⟩
            | none => ⟨1, 1, 1⟩
          else ⟨1, 1, 1⟩
        | none => ⟨1, 1, 1⟩
      { success := true,
        action := some
          { type := "create", shape := some shape, color := some color,
            position := some position, scale := some scl } }

/-- `parseMoveCommand`. -/
def parseMoveCommand (tokens : List String) : CommandResult :=
  if tokens.length = 0 then
    { success := false, error := some "Missing movement direction or coordinates" }
  else
    let target := modifyTarget tokens
    if tokens.contains "up" then
      { success := true,
        action := some
          { type := "modify", property := some "position",
            position := some ⟨0, 1, 0⟩, target := target } }
    else if tokens.contains "down" then
      { success := true,
        action := some
          { type := "modify", property := some "position",
            position := some ⟨0, -1, 0⟩, target := target } }
    else
      let invalid : CommandResult :=
        { success := false,
          error := some "Invalid move command. Try: move up, move down, move to x y z" }
      match tokens.findIdx? (fun t => t = "to") with
      | some ti =>
        if ti + 2 < tokens.length then
          match jsParseFloat (tokens.getD (ti + 1) ""),
                jsParseFloat (tokens.getD (ti + 2) "") with
          | some px, some py =>
            { success := true,
              action := some
                { type := "modify", property := some "position",
                  position := some ⟨px, py, (jsParseFloat (tokens.getD (ti + 3) "")).getD 0⟩,
                  target := target } }
          | _, _ => invalid
        else invalid
      | none => invalid

/-- `parseRotateCommand`: always succeeds; the first numeric token
anywhere is the degree value, defaulting to 45, applied to the Y axis. -/
def parseRotateCommand (tokens : List String) : CommandResult :=
  let target := modifyTarget tokens
  let deg := (firstNumericValue tokens).getD 45
  { success := true,
    action := some
      { type := "modify", property := some "rotation",
        rotationDeg := some ⟨0, deg, 0⟩, target := target } }

/-- `parseScaleCommand`. -/
def parseScaleCommand (tokens : List String) : CommandResult :=
  if tokens.length = 0 then
    { success := false, error := some "Missing scale factor" }
  else
    let target := modifyTarget tokens
    match firstNumericValue tokens with
    | none =>
      { success := false,
        error := some "Invalid scale value. Use a number like: scale 2" }
    | some v =>
      if v ≤ 0 then
        { success := false, error := some "Scale value must be positive" }
      else
        { success := true,
          action := some
            { type := "modify", property := some "scale",
              scale := some ⟨v, v, v⟩, target := target } }

/-- `parseColorCommand`. -/
def parseColorCommand (tokens : List String) : CommandResult :=
  if tokens.length = 0 then
    { success := false, error := some "Missing color name" }
  else
    let target := modifyTarget tokens
    match (tokens.find? (fun t => (colorMap t).isSome)).bind colorMap with
    | none =>
      { success := false,
        error := some ("Unknown color. Available colors: " ++
          String.intercalate ", " colorKeys) }
    | some c =>
      { success := true,
        action := some
          { type := "modify", property := some "color",
            color := some c, target := target } }

/-- `parseSelectCommand`: passes the remaining tokens through as a
free-text target. -/
def parseSelectCommand (tokens : List String) : CommandResult :=
  { success := true,
    action := some { type := "select", target := some (String.intercalate " " tokens) } }

/-- `parseDeleteCommand`. -/
def parseDeleteCommand (tokens : List String) : CommandResult :=
  let target :=
    if tokens.contains "object" || tokens.contains "selected" || tokens.length == 0
    then "selected" else String.intercalate " " tokens
  { success := true, action := some { type := "delete", target := some target } }

/-- The unknown-verb error message. -/
def unknownVerbMsg (verb : String) : String :=
  "Unknown command: " ++ verb ++
    ". Try \x27create\x27, \x27move\x27, \x27rotate\x27, \x27scale\x27, \x27color\x27, or \x27delete\x27"

/-- The verb dispatch of `parseCommand` on an already-tokenized command:
the first token is matched against the fixed verb synonyms; an
unrecognized verb falls back to a create retry when the tokens contain
`cube`, `sphere`, or `cylinder` (only these three literals in the
source). -/
def parseCommandTokens (tokens : List String) : CommandResult :=
  if tokens.length = 0 then
    { success := false, error := some "Empty command" }
  else
    let verb := tokens.headD ""
    if verb = "create" ∨ verb = "add" ∨ verb = "make" then
      parseCreateCommand tokens.tail
    else if verb = "move" ∨ verb = "translate" then
      parseMoveCommand tokens.tail
    else if verb = "rotate" ∨ verb = "turn" then
      parseRotateCommand tokens.tail
    else if verb = "scale" ∨ verb = "resize" ∨ verb = "size" then
      parseScaleCommand tokens.tail
    else if verb = "color" ∨ verb = "paint" then
      parseColorCommand tokens.tail
    else if verb = "select" ∨ verb = "choose" then
      parseSelectCommand tokens.tail
    else if verb = "delete" ∨ verb = "remove" then
      parseDeleteCommand tokens.tail
    else if verb = "clear" ∨ verb = "reset" then
      { success := true, action := some { type := "clear" } }
    else if tokens.contains "cube" || tokens.contains "sphere" ||
        tokens.contains "cylinder" then
      parseCreateCommand tokens
    else
      { success := false, error := some (unknownVerbMsg verb) }

/-- `parseCommand`: tokenize, then dispatch. -/
def parseCommand (command : String) : CommandResult :=
  parseCommandTokens (jsTokenize command)

/-- The `Math.PI / 180` degree-to-radian conversion applied by the rotate
parser. -/
noncomputable def degreesToRadians (d : ℚ) : ℝ :=
  (d : ℝ) * (Real.pi / 180)

/-- The verb synonyms recognized by the dispatch switch of
`parseCommand`. -/
def recognizedVerbs : List String :=
  ["create", "add", "make", "move", "translate", "rotate", "turn",
   "scale", "resize", "size", "color", "paint", "select", "choose",
   "delete", "remove", "clear", "reset"]

/-- The x-extent of an entity's axis-aligned footprint: its center less
and plus half its x-scale. -/
def spanX (o : ModelingObject) : ℚ × ℚ :=
  (o.position.x - o.scale.x / 2, o.position.x + o.scale.x / 2)

/-- The z-extent of an entity's axis-aligned footprint. -/
def spanZ (o : ModelingObject) : ℚ × ℚ :=
  (o.position.z - o.scale.z / 2, o.position.z + o.scale.z / 2)

/-- The public store operations, with every nondeterministically generated
id recorded as explicit data so that a reachable state is a fold over an
operation list. -/
inductive StoreOp where
  | create (newId : String) (p : ObjectParams)
  | update (id : String) (u : ObjectUpdate)
  | delete (id : String)
  | duplicate (id newId : String)
  | select (id : Option String)
  | clear
  | room (roomId fId nId sId eId wId ty : String) (d : Dimensions)
  | furniture (newId roomId furnitureType : String) (position : Option Vector3)

/-- Run one public store operation. -/
def applyOp (st : ModelingState) : StoreOp → ModelingState
  | .create newId p => (createObject st newId p).2
  | .update id u => updateObject st id u
  | .delete id => deleteObject st id
  | .duplicate id newId => (duplicateObject st id newId).2
  | .select id => selectObject st id
  | .clear => clearScene st
  | .room roomId fId nId sId eId wId ty d =>
      (createRoom st roomId fId nId sId eId wId ty d).2
  | .furniture newId roomId furnitureType position =>
      (addFurniture st newId roomId furnitureType position).2

/-- The state reached from the empty store by a sequence of public
operations. -/
def execOps (ops : List StoreOp) : ModelingState :=
  ops.foldl applyOp initialState

/-- The selection invariant: the selected pointer, when set, denotes an
entity currently present in the collection. -/
def selectionConsistent (st : ModelingState) : Prop :=
  ∀ o, st.selectedObject = some o → o ∈ st.objects

/-- A concrete entity used by witnesses. -/
def sampleObject : ModelingObject :=
  { id := "obj_1", type := "cube", name := some "Cube",
    position := ⟨1, 1, 1⟩, rotation := ⟨0, 0, 0⟩, scale := ⟨1, 1, 1⟩,
    color := "#ff6b6b" }

/-- A concrete store whose only entity is selected, used by witnesses. -/
def sampleStore : ModelingState :=
  { objects := [sampleObject], selectedObject := some sampleObject,
    currentRoom := none, floorPlan := none, viewMode := "3d" }

/-- The patch of the specification's color scenario. -/
def colorPatch : ObjectUpdate :=
  { color := some "#123456" }

/-- C1: for every entity present in the store and every partial patch, if
that entity is currently selected then after `update(id, patch)` the
selection pointer equals the merged entity (original fields overwritten by
patch fields), the merged entity is in the collection, and in particular a
`color` patch makes the selected entity's color the patched value. -/
theorem update_refreshes_selection (st : ModelingState) (id : String)
    (u : ObjectUpdate) (e : ModelingObject)
    (hsel : st.selectedObject = some e) (hmem : e ∈ st.objects)
    (hid : e.id = id) :
    (updateObject st id u).selectedObject = some (mergeObject e u) ∧
    mergeObject e u ∈ (updateObject st id u).objects ∧
    ∀ c, u.color = some c → (mergeObject e u).color = c := by
  refine ⟨?_, ?_, ?_⟩
  · simp [updateObject, hsel, hid]
  · exact List.mem_map.mpr ⟨e, hmem, by simp [hid]⟩
  · intro c hc
    simp [mergeObject, hc]

/-- Witness for C1: a one-entity store whose entity is selected, updated
with the color patch of the specification scenario. -/
theorem update_refreshes_selection_witness :
    (sampleStore.selectedObject = some sampleObject ∧
      sampleObject ∈ sampleStore.objects ∧ sampleObject.id = "obj_1") ∧
    (updateObject sampleStore "obj_1" colorPatch).selectedObject =
      some (mergeObject sampleObject colorPatch) ∧
    mergeObject sampleObject colorPatch ∈
      (updateObject sampleStore "obj_1" colorPatch).objects ∧
    (∀ c, colorPatch.color = some c →
      (mergeObject sampleObject colorPatch).color = c) ∧
    (mergeObject sampleObject colorPatch).color = "#123456" :=
  ⟨⟨rfl, by simp [sampleStore], rfl⟩,
   (update_refreshes_selection sampleStore "obj_1" colorPatch sampleObject rfl
      (by simp [sampleStore]) rfl).1,
   (update_refreshes_selection sampleStore "obj_1" colorPatch sampleObject rfl
      (by simp [sampleStore]) rfl).2.1,
   (update_refreshes_selection sampleStore "obj_1" colorPatch sampleObject rfl
      (by simp [sampleStore]) rfl).2.2,
   by rfl⟩

/-- C5: `duplicate(id)` of a present entity creates and returns (via
`create`, hence also selecting and appending) a clone equal to the
original in all fields except a fresh id distinct from the original's,
`x` and `z` offset by one each (`y` unchanged), and the name suffixed with
a space and `Copy` when a non-empty name existed; `duplicate` of an absent
id returns null and leaves the store unchanged. -/
theorem duplicate_spec (st : ModelingState) (id newId : String)
    (hfresh : ∀ o ∈ st.objects, o.id ≠ newId) :
    (st.objects.find? (fun o => o.id == id) = none →
      duplicateObject st id newId = (none, st)) ∧
    (∀ orig, st.objects.find? (fun o => o.id == id) = some orig →
      ∃ dup, duplicateObject st id newId =
          (some dup, { st with objects := st.objects ++ [dup],
                               selectedObject := some dup }) ∧
        dup.id = newId ∧ dup.id ≠ orig.id ∧
        dup.position.x = orig.position.x + 1 ∧
        dup.position.y = orig.position.y ∧
        dup.position.z = orig.position.z + 1 ∧
        dup.type = orig.type ∧ dup.color = orig.color ∧
        dup.scale = orig.scale ∧ dup.rotation = orig.rotation ∧
        dup.category = orig.category ∧ dup.subtype = orig.subtype ∧
        dup.opacity = orig.opacity ∧ dup.modelPath = orig.modelPath ∧
        dup.material = orig.material ∧ dup.wireframe = orig.wireframe ∧
        dup.visible = orig.visible ∧ dup.room = orig.room ∧
        dup.isStructural = orig.isStructural ∧
        (∀ n, orig.name = some n → n ≠ "" → dup.name = some (n ++ " Copy")) ∧
        (orig.name = none → dup.name = none)) := by
  constructor
  · intro h
    simp [duplicateObject, h]
  · intro orig h
    have hmem : orig ∈ st.objects := List.mem_of_find?_eq_some h
    refine ⟨({ orig.params with
        name := copyName orig.name,
        position := ⟨orig.position.x + 1, orig.position.y,
                     orig.position.z + 1⟩ } : ObjectParams).withId newId,
      ?_, rfl, ?_, rfl, rfl, rfl, rfl, rfl, rfl, rfl, rfl, rfl, rfl, rfl,
      rfl, rfl, rfl, rfl, rfl, ?_, ?_⟩
    · simp [duplicateObject, h, createObject]
    · exact fun hcontra => hfresh orig hmem hcontra.symm
    · intro n hn hne
      simp [ObjectParams.withId, ModelingObject.params, copyName, hn, hne]
    · intro hn
      simp [ObjectParams.withId, ModelingObject.params, copyName, hn]

/-- Witness for C5: duplicating the sample entity at position
`(1, 1, 1)` yields a clone at `(2, 1, 2)` with a distinct id, appended and
selected. -/
theorem duplicate_spec_witness :
    (∀ o ∈ sampleStore.objects, o.id ≠ "obj_2") ∧
    ∃ dup, duplicateObject sampleStore "obj_1" "obj_2" =
        (some dup, { sampleStore with
          objects := sampleStore.objects ++ [dup],
          selectedObject := some dup }) ∧
      dup.position.x = 2 ∧ dup.position.y = 1 ∧ dup.position.z = 2 ∧
      dup.id ≠ sampleObject.id := by
  refine ⟨by decide, ?_⟩
  obtain ⟨-, h2⟩ := duplicate_spec sampleStore "obj_1" "obj_2" (by decide)
  obtain ⟨dup, heq, -, hne, hx, hy, hz, -⟩ := h2 sampleObject (by decide)
  refine ⟨dup, heq, ?_, ?_, ?_, hne⟩
  · rw [hx]; norm_num [sampleObject]
  · rw [hy]; rfl
  · rw [hz]; norm_num [sampleObject]

/-- C8: the scene export produces version `1.0`, the supplied timestamp,
and the object list mapped through a transform that removes `modelPath`
from entities of kind `imported` and leaves every other field — and the
`modelPath` of non-imported entities — unchanged. -/
theorem export_strips_imported_modelPath (objects : List ModelingObject)
    (ts : String) :
    (exportScene objects ts).version = "1.0" ∧
    (exportScene objects ts).timestamp = ts ∧
    (exportScene objects ts).objects = objects.map exportObject ∧
    ∀ o : ModelingObject,
      (exportObject o).id = o.id ∧ (exportObject o).type = o.type ∧
      (exportObject o).category = o.category ∧
      (exportObject o).subtype = o.subtype ∧
      (exportObject o).name = o.name ∧
      (exportObject o).position = o.position ∧
      (exportObject o).rotation = o.rotation ∧
      (exportObject o).scale = o.scale ∧
      (exportObject o).color = o.color ∧
      (exportObject o).opacity = o.opacity ∧
      (exportObject o).material = o.material ∧
      (exportObject o).wireframe = o.wireframe ∧
      (exportObject o).visible = o.visible ∧
      (exportObject o).room = o.room ∧
      (exportObject o).isStructural = o.isStructural ∧
      (o.type = "imported" → (exportObject o).modelPath = none) ∧
      (o.type ≠ "imported" → (exportObject o).modelPath = o.modelPath) := by
  refine ⟨rfl, rfl, rfl, fun o => ?_⟩
  refine ⟨rfl, rfl, rfl, rfl, rfl, rfl, rfl, rfl, rfl, rfl, rfl, rfl, rfl,
    rfl, rfl, ?_, ?_⟩
  · intro h
    simp [exportObject, h]
  · intro h
    simp [exportObject, h]

/-- C9: `importBlueprint` returns and stores a floor plan whose rooms
array is empty — only image metadata (file-derived name, image URL, unit
scale, fixed 20 by 20 dimensions) is recorded, and no entity is touched. -/
theorem importBlueprint_records_no_rooms (st : ModelingState)
    (planId fileName imageUrl : String) :
    (importBlueprint st planId fileName imageUrl).1.rooms = [] ∧
    (importBlueprint st planId fileName imageUrl).1.scale = 1 ∧
    (importBlueprint st planId fileName imageUrl).1.dimensions = ⟨20, 20⟩ ∧
    (importBlueprint st planId fileName imageUrl).1.name =
      (fileName.splitOn ".").headD "" ∧
    (importBlueprint st planId fileName imageUrl).1.imageUrl =
      some imageUrl ∧
    (importBlueprint st planId fileName imageUrl).2.floorPlan =
      some (importBlueprint st planId fileName imageUrl).1 ∧
    (importBlueprint st planId fileName imageUrl).2.objects = st.objects ∧
    (importBlueprint st planId fileName imageUrl).2.selectedObject =
      st.selectedObject ∧
    (importBlueprint st planId fileName imageUrl).2.currentRoom =
      st.currentRoom :=
  ⟨rfl, rfl, rfl, rfl, rfl, rfl, rfl, rfl, rfl⟩

/-- C2: `createRoom` creates exactly four walls and one floor; the floor
is centered at the origin and scaled `width` by `length`; two walls span
the width at `z` equal to plus and minus half the length, two span the
length at `x` equal to plus and minus half the width, all four sharing the
fixed `0.2` thickness and the room's height; and every wall's long-axis
extent equals — as exact rationals, hence within any tolerance including
`1e-6` — the floor edge it covers, the wall ends meeting the corner
center-lines with no gap or overrun. Stated for all dimensions, which
subsumes the positive ones of the claim. -/
theorem createRoom_geometry (st : ModelingState)
    (roomId fId nId sId eId wId ty : String) (d : Dimensions) :
    (createRoom st roomId fId nId sId eId wId ty d).1.floor =
      (floorParams roomId ty d).withId fId ∧
    (createRoom st roomId fId nId sId eId wId ty d).1.walls =
      [(northWallParams roomId d).withId nId,
       (southWallParams roomId d).withId sId,
       (eastWallParams roomId d).withId eId,
       (westWallParams roomId d).withId wId] ∧
    (createRoom st roomId fId nId sId eId wId ty d).2.objects =
      st.objects ++
        [(floorParams roomId ty d).withId fId,
         (northWallParams roomId d).withId nId,
         (southWallParams roomId d).withId sId,
         (eastWallParams roomId d).withId eId,
         (westWallParams roomId d).withId wId] ∧
    (createRoom st roomId fId nId sId eId wId ty d).1.walls.length = 4 ∧
    (∀ w ∈ (createRoom st roomId fId nId sId eId wId ty d).1.walls,
      w.type = "wall" ∧ w.scale.y = d.height ∧ w.position.y = d.height / 2) ∧
    ((floorParams roomId ty d).withId fId).type = "floor" ∧
    ((floorParams roomId ty d).withId fId).position = ⟨0, 0, 0⟩ ∧
    ((floorParams roomId ty d).withId fId).scale.x = d.width ∧
    ((floorParams roomId ty d).withId fId).scale.z = d.length ∧
    ((northWallParams roomId d).withId nId).scale.x = d.width ∧
    ((northWallParams roomId d).withId nId).position.z = d.length / 2 ∧
    ((northWallParams roomId d).withId nId).scale.z = 1 / 5 ∧
    ((southWallParams roomId d).withId sId).scale.x = d.width ∧
    ((southWallParams roomId d).withId sId).position.z = -(d.length / 2) ∧
    ((southWallParams roomId d).withId sId).scale.z = 1 / 5 ∧
    ((eastWallParams roomId d).withId eId).scale.z = d.length ∧
    ((eastWallParams roomId d).withId eId).position.x = d.width / 2 ∧
    ((eastWallParams roomId d).withId eId).scale.x = 1 / 5 ∧
    ((westWallParams roomId d).withId wId).scale.z = d.length ∧
    ((westWallParams roomId d).withId wId).position.x = -(d.width / 2) ∧
    ((westWallParams roomId d).withId wId).scale.x = 1 / 5 ∧
    spanX ((northWallParams roomId d).withId nId) =
      spanX ((floorParams roomId ty d).withId fId) ∧
    spanX ((southWallParams roomId d).withId sId) =
      spanX ((floorParams roomId ty d).withId fId) ∧
    spanZ ((eastWallParams roomId d).withId eId) =
      spanZ ((floorParams roomId ty d).withId fId) ∧
    spanZ ((westWallParams roomId d).withId wId) =
      spanZ ((floorParams roomId ty d).withId fId) ∧
    (spanX ((northWallParams roomId d).withId nId)).2 =
      ((eastWallParams roomId d).withId eId).position.x ∧
    (spanX ((northWallParams roomId d).withId nId)).1 =
      ((westWallParams roomId d).withId wId).position.x ∧
    (spanZ ((eastWallParams roomId d).withId eId)).2 =
      ((northWallParams roomId d).withId nId).position.z ∧
    (spanZ ((eastWallParams roomId d).withId eId)).1 =
      ((southWallParams roomId d).withId sId).position.z := by
  refine ⟨rfl, rfl, ?_, rfl, ?_, rfl, rfl, rfl, rfl, rfl, rfl, rfl, rfl,
    rfl, rfl, rfl, rfl, rfl, rfl, rfl, rfl, ?_, ?_, ?_, ?_, ?_, ?_, ?_, ?_⟩
  · simp [createRoom, createObject, List.append_assoc]
  · intro w hw
    simp [createRoom, createObject] at hw
    rcases hw with rfl | rfl | rfl | rfl <;> exact ⟨rfl, rfl, rfl⟩
  all_goals
    first
    | rfl
    | simp [spanX, spanZ, floorParams, northWallParams, southWallParams,
        eastWallParams, westWallParams, ObjectParams.withId]

/-- C7: the rotate parser always succeeds, taking the first token that
parses as a number — anywhere in the remaining tokens — as a degree value
applied to the Y axis only (defaulting to 45 when no numeric token
exists); in particular `rotate object 90` yields a modify action on the
rotation property whose Y angle of 90 degrees converts to `π / 2`
radians, the X and Z angles staying zero. -/
theorem rotate_first_numeric_y_axis :
    parseCommand "rotate object 90" =
      { success := true,
        action := some
          { type := "modify", property := some "rotation",
            rotationDeg := some ⟨0, 90, 0⟩, target := some "selected" },
        error := none } ∧
    degreesToRadians 90 = Real.pi / 2 ∧
    degreesToRadians 0 = 0 ∧
    parseCommand "rotate" =
      { success := true,
        action := some
          { type := "modify", property := some "rotation",
            rotationDeg := some ⟨0, 45, 0⟩, target := none },
        error := none } ∧
    (∀ tokens : List String, ∃ a : CommandAction,
      parseRotateCommand tokens =
        { success := true, action := some a, error := none } ∧
      a.type = "modify" ∧ a.property = some "rotation" ∧
      a.rotationDeg = some ⟨0, (firstNumericValue tokens).getD 45, 0⟩ ∧
      a.position = none ∧ a.scale = none ∧ a.shape = none ∧
      a.color = none) := by
  have htok : jsTokenize "rotate object 90" = ["rotate", "object", "90"] := by
    decide
  have htok2 : jsTokenize "rotate" = ["rotate"] := by decide
  refine ⟨?_, ?_, ?_, ?_, ?_⟩
  · rw [parseCommand, htok]
    simp +decide [parseCommandTokens, parseRotateCommand, modifyTarget,
      firstNumericValue, isNumericToken, jsParseFloat, jsParseFloatChars,
      digitsVal, jsExponent]
    norm_num
  · rw [degreesToRadians]
    push_cast
    ring
  · rw [degreesToRadians]
    push_cast
    ring
  · rw [parseCommand, htok2]
    simp +decide [parseCommandTokens, parseRotateCommand, modifyTarget,
      firstNumericValue, isNumericToken, jsParseFloat, jsParseFloatChars,
      digitsVal, jsExponent]
  · intro tokens
    exact ⟨_, rfl, rfl, rfl, rfl, rfl, rfl, rfl, rfl⟩

/-- Lowercasing a whitespace character leaves it whitespace. -/
theorem toLower_whitespace (c : Char) (h : c.isWhitespace = true) :
    c.toLower.isWhitespace = true := by
  simp only [Char.isWhitespace, Bool.or_eq_true, decide_eq_true_eq] at h
  rcases h with ((rfl | rfl) | rfl) | rfl <;> decide

/-- C3: on the empty string and on every other all-whitespace input the
parser does NOT return the `Empty command` failure — JavaScript
`split` on a regex returns a one-element array holding the empty string,
so the empty-token-list branch is unreachable and the parser instead
returns the unknown-verb failure with an empty verb. This contradicts the
specified `EmptyCommand` behavior; the dead `Empty command` branch in the
source records the intent. -/
theorem empty_command_is_unknown_verb (s : String)
    (hws : ∀ c ∈ s.data, c.isWhitespace = true) :
    parseCommand s =
      { success := false, action := none,
        error := some (unknownVerbMsg "") } ∧
    parseCommand s ≠
      { success := false, action := none, error := some "Empty command" } := by
  have hlow : ∀ c ∈ s.data.map Char.toLower, c.isWhitespace = true := by
    intro c hc
    obtain ⟨c0, hc0, rfl⟩ := List.mem_map.mp hc
    exact toLower_whitespace c0 (hws c0 hc0)
  have hdrop : (s.data.map Char.toLower).dropWhile Char.isWhitespace = [] :=
    List.dropWhile_eq_nil_iff.mpr hlow
  have htrim : jsTrim (s.data.map Char.toLower) = [] := by
    simp [jsTrim, hdrop]
  have htok : jsTokenize s = [""] := by
    simp [jsTokenize, htrim]
  rw [parseCommand, htok]
  exact ⟨by decide, by decide⟩

/-- Witness for C3 at the three-space input of the specification
scenario. -/
theorem empty_command_is_unknown_verb_witness :
    (∀ c ∈ ("   " : String).data, c.isWhitespace = true) ∧
    (parseCommand "   " =
      { success := false, action := none,
        error := some (unknownVerbMsg "") } ∧
     parseCommand "   " ≠
      { success := false, action := none, error := some "Empty command" }) :=
  ⟨by decide, empty_command_is_unknown_verb "   " (by decide)⟩

/-- C4 counterexample: `cone` is one of the six known shape names, yet an
input whose unrecognized first token list contains it is rejected with the
unknown-verb failure instead of being retried as a create command (which
would succeed) — the fallback tests only the three literals `cube`,
`sphere`, `cylinder`. -/
theorem shape_fallback_counterexample :
    "cone" ∈ validShapes ∧
    (parseCreateCommand ["cone"]).success = true ∧
    parseCommand "cone" =
      { success := false, action := none,
        error := some (unknownVerbMsg "cone") } ∧
    (parseCommand "cone").success = false := by
  exact ⟨by decide, by decide, by decide, by decide⟩

/-- C4 (amended): for every token list whose first token is not a
recognized verb, the parser retries the whole token list as a create
command if and only if some token is literally `cube`, `sphere`, or
`cylinder` — aliases and the remaining shape names `cone`, `torus`,
`plane` do not trigger the retry — and otherwise fails with the
unknown-verb error. -/
theorem shape_fallback_amended (tokens : List String)
    (hne : tokens.length ≠ 0)
    (hverb : tokens.headD "" ∉ recognizedVerbs) :
    (("cube" ∈ tokens ∨ "sphere" ∈ tokens ∨ "cylinder" ∈ tokens) →
      parseCommandTokens tokens = parseCreateCommand tokens) ∧
    (("cube" ∉ tokens ∧ "sphere" ∉ tokens ∧ "cylinder" ∉ tokens) →
      parseCommandTokens tokens =
        { success := false, action := none,
          error := some (unknownVerbMsg (tokens.headD "")) }) := by
  simp only [recognizedVerbs, List.mem_cons, List.not_mem_nil, or_false,
    not_or] at hverb
  obtain ⟨h1, h2, h3, h4, h5, h6, h7, h8, h9, h10, h11, h12, h13, h14, h15,
    h16, h17, h18⟩ := hverb
  simp only [List.headD_eq_head?_getD] at *
  constructor
  · intro hc
    simp [parseCommandTokens, hne, h1, h2, h3, h4, h5, h6, h7, h8, h9, h10,
      h11, h12, h13, h14, h15, h16, h17, h18, hc]
    intro hcu hcs hcc
    rcases hc with h | h | h
    · exact absurd h hcu
    · exact absurd h hcs
    · exact absurd h hcc
  · intro hc
    simp [parseCommandTokens, hne, h1, h2, h3, h4, h5, h6, h7, h8, h9, h10,
      h11, h12, h13, h14, h15, h16, h17, h18, hc.1, hc.2.1, hc.2.2]

/-- Witness for C4 (amended) at the token list `foo cube`, whose head is
not a recognized verb and which contains `cube`. -/
theorem shape_fallback_amended_witness :
    ((["foo", "cube"] : List String).length ≠ 0 ∧
      (["foo", "cube"] : List String).headD "" ∉ recognizedVerbs) ∧
    ((("cube" ∈ (["foo", "cube"] : List String) ∨
        "sphere" ∈ (["foo", "cube"] : List String) ∨
        "cylinder" ∈ (["foo", "cube"] : List String)) →
      parseCommandTokens ["foo", "cube"] = parseCreateCommand ["foo", "cube"]) ∧
     (("cube" ∉ (["foo", "cube"] : List String) ∧
        "sphere" ∉ (["foo", "cube"] : List String) ∧
        "cylinder" ∉ (["foo", "cube"] : List String)) →
      parseCommandTokens ["foo", "cube"] =
        { success := false, action := none,
          error := some (unknownVerbMsg ((["foo", "cube"] : List String).headD "")) })) :=
  ⟨⟨by decide, by decide⟩,
   shape_fallback_amended ["foo", "cube"] (by decide) (by decide)⟩

/-- One public store operation preserves the selection invariant. -/
theorem applyOp_preserves_selectionConsistent (st : ModelingState)
    (h : selectionConsistent st) (op : StoreOp) :
    selectionConsistent (applyOp st op) := by
  cases op with
  | create newId p =>
    intro o ho
    simp only [applyOp, createObject] at ho ⊢
    rw [Option.some_inj] at ho
    subst ho
    simp
  | update id u =>
    intro o ho
    simp only [applyOp, updateObject] at ho ⊢
    cases hsel : st.selectedObject with
    | none => simp [hsel] at ho
    | some s =>
      have hs := h s hsel
      simp only [hsel] at ho
      cases hid : s.id == id with
      | true =>
        simp only [hid, reduceIte, Option.some_inj] at ho
        subst ho
        exact List.mem_map.mpr ⟨s, hs, by simp [hid]⟩
      | false =>
        simp only [hid, Bool.false_eq_true, reduceIte, Option.some_inj] at ho
        subst ho
        exact List.mem_map.mpr ⟨s, hs, by simp [hid]⟩
  | delete id =>
    intro o ho
    simp only [applyOp, deleteObject] at ho ⊢
    cases hsel : st.selectedObject with
    | none => simp [hsel] at ho
    | some s =>
      have hs := h s hsel
      simp only [hsel] at ho
      cases hid : s.id == id with
      | true => simp [hid] at ho
      | false =>
        simp only [hid, Bool.false_eq_true, reduceIte, Option.some_inj] at ho
        subst ho
        refine List.mem_filter.mpr ⟨hs, ?_⟩
        simp [bne, hid]
  | duplicate id newId =>
    intro o ho
    simp only [applyOp] at ho ⊢
    cases hf : st.objects.find? (fun ob => ob.id == id) with
    | none =>
      simp only [duplicateObject, hf] at ho ⊢
      exact h o ho
    | some orig =>
      simp only [duplicateObject, hf, createObject, Option.some_inj] at ho ⊢
      subst ho
      simp
  | select id =>
    intro o ho
    simp only [applyOp, selectObject] at ho ⊢
    cases id with
    | none => simp at ho
    | some i =>
      by_cases hemp : i = ""
      · simp [hemp] at ho
      · simp only [if_neg hemp] at ho
        exact List.mem_of_find?_eq_some ho
  | clear =>
    intro o ho
    simp [applyOp, clearScene] at ho
  | room roomId fId nId sId eId wId ty d =>
    intro o ho
    simp only [applyOp, createRoom, createObject] at ho ⊢
    rw [Option.some_inj] at ho
    subst ho
    simp
  | furniture newId roomId furnitureType position =>
    intro o ho
    simp only [applyOp, addFurniture, createObject] at ho ⊢
    rw [Option.some_inj] at ho
    subst ho
    simp

/-- Folding any operation list preserves the selection invariant. -/
theorem foldl_preserves_selectionConsistent (ops : List StoreOp) :
    ∀ st, selectionConsistent st →
      selectionConsistent (ops.foldl applyOp st) := by
  induction ops with
  | nil => exact fun st h => h
  | cons op rest ih =>
    intro st h
    exact ih (applyOp st op) (applyOp_preserves_selectionConsistent st h op)

/-- C6: in every state reachable from the empty store by a sequence of
the public operations, the selection is either absent or an entity
currently present in the collection — never a dangling reference. -/
theorem selection_never_dangling (ops : List StoreOp) :
    selectionConsistent (execOps ops) :=
  foldl_preserves_selectionConsistent ops initialState
    (fun o ho => by simp [initialState] at ho)

/-- C10: `createRoom` mutates the selection as a side effect — whatever
was selected before the call, afterwards the selected entity is the last
structural entity created, the fourth wall (the West wall). -/
theorem createRoom_selects_west_wall (st : ModelingState)
    (roomId fId nId sId eId wId ty : String) (d : Dimensions) :
    (createRoom st roomId fId nId sId eId wId ty d).2.selectedObject =
      some ((westWallParams roomId d).withId wId) ∧
    (createRoom st roomId fId nId sId eId wId ty d).1.walls.getLast? =
      some ((westWallParams roomId d).withId wId) ∧
    (createRoom st roomId fId nId sId eId wId ty d).2.objects.getLast? =
      some ((westWallParams roomId d).withId wId) ∧
    ((westWallParams roomId d).withId wId).name = some "West Wall" ∧
    ((westWallParams roomId d).withId wId).type = "wall" := by
  refine ⟨rfl, rfl, ?_, rfl, rfl⟩
  simp [createRoom, createObject]

end ModelForge
